import Mathlib

/-!
Verification of the Cyber-X reinforcement-learning honeypot simulator
(`src/server/rl/honeypot_env_sim.py` and friends).

The simulator is embedded shallowly: machine floats become exact rationals
(all constants in the source are short decimals, exactly representable),
Python's global random draws become explicit draw records passed to each
step, and exceptions become `Except`.
-/



namespace CyberX

/-- The environment mode. In the source this is the string handed to
`HoneypotEnvSimulated.__init__`; every string other than `"attacker"`
takes the defender branch, so a two-constructor tag is faithful. -/
inductive Mode
  | attacker
  | defender
deriving DecidableEq, Repr

/-- `self.attack_state` dict of `HoneypotEnvSimulated`. -/
structure AttackState where
  connection_active : Bool
  commands_executed : Nat
  files_accessed : Nat
  privilege_level : ℚ
  failed_attempts : Nat
  successful_exploits : Nat
  detection_score : ℚ
deriving DecidableEq, Repr

/-- Initial / reset attacker state (`reset`, attacker branch). -/
def initialAttackState : AttackState :=
  { connection_active := false
    commands_executed := 0
    files_accessed := 0
    privilege_level := 0.0
    failed_attempts := 0
    successful_exploits := 0
    detection_score := 0.0 }

/-- `self.defense_state` dict of `HoneypotEnvSimulated`. -/
structure DefenseState where
  active_connections : Nat
  failed_logins : Nat
  suspicious_commands : Nat
  ips_blocked : Nat
  attacks_detected : Nat
deriving DecidableEq, Repr

/-- The random draws an attacker step may consume
(`random.random()` success tests, `random.uniform(0, 3)` bonus,
`random.randint` counts). At most one branch runs per step, so one
success flag suffices. -/
structure AtkDraws where
  success : Bool
  enumBonus : ℚ
  usersFound : Nat
  exfilFiles : Nat
deriving DecidableEq, Repr

def defaultAtkDraws : AtkDraws :=
  { success := false, enumBonus := 0, usersFound := 0, exfilFiles := 0 }

/-- The random draws a defender step may consume: the latent
`attack_happening = random.random() < 0.4`, the per-action success test,
and the state-update increments `random.randint(1, 5)` / `random.randint(0, 3)`. -/
structure DefDraws where
  attack_happening : Bool
  success : Bool
  loginInc : Nat
  cmdInc : Nat
deriving DecidableEq, Repr

def defaultDefDraws : DefDraws :=
  { attack_happening := false, success := false, loginInc := 0, cmdInc := 0 }

/-- The random draws `_get_observation` consumes in defender mode
(`random.randint(1,10)`, `random.uniform(10,300)`, `random.random() < 0.2`,
`random.randint(0,5)`, `random.randint(0,3)`). -/
structure ObsDraws where
  uniqueIPs : Nat
  sessionDur : ℚ
  portScan : Bool
  malwareDownloads : Nat
  privEscAttempts : Nat
deriving DecidableEq, Repr

def defaultObsDraws : ObsDraws :=
  { uniqueIPs := 0, sessionDur := 0, portScan := false
    malwareDownloads := 0, privEscAttempts := 0 }

/-- Attacker action-name list of `_get_action_name`. -/
def attackerActionNames : List String :=
  ["brute_force", "enumerate", "recon", "download_malware",
   "privilege_escalation", "create_backdoor", "modify_files",
   "exfiltrate", "port_scan", "wait"]

/-- Defender action-name list of `_get_action_name`. -/
def defenderActionNames : List String :=
  ["monitor", "rate_limit", "temp_block", "perm_block",
   "deploy_decoy", "rotate_config", "alert", "isolate",
   "reset", "deception"]

/-- Python list indexing `xs[i]`: valid for `-len ≤ i < len` with negative
wrap-around, otherwise it raises IndexError. -/
def pyListGet (xs : List String) (i : Int) : Except String String :=
  if 0 ≤ i ∧ i < (xs.length : Int) then
    Except.ok (xs.getD i.toNat "")
  else if -(xs.length : Int) ≤ i ∧ i < 0 then
    Except.ok (xs.getD (i + (xs.length : Int)).toNat "")
  else
    Except.error "list index out of range"

/-- `_get_action_name`: indexes the mode's 10-element name list with the
raw action integer. -/
def getActionName (mode : Mode) (action : Int) : Except String String :=
  if mode = Mode.attacker then pyListGet attackerActionNames action
  else pyListGet defenderActionNames action

/-- `action == 0`, brute force: on the probabilistic success, open the
connection at privilege 0.5; either way the detection score rises 0.1
(the source adds it after the `if/else`; here it is inlined into both
branches, same effect). -/
def bruteForceSim (d : AtkDraws) (s : AttackState) : ℚ × AttackState :=
  if d.success then  -- 30% success rate
    (20.0, { s with connection_active := true
                    privilege_level := 0.5
                    successful_exploits := s.successful_exploits + 1
                    detection_score := s.detection_score + 0.1 })
  else
    (-2.0, { s with failed_attempts := s.failed_attempts + 1
                    detection_score := s.detection_score + 0.1 })

/-- `action == 1`, enumerate. -/
def enumerateSim (d : AtkDraws) (s : AttackState) : ℚ × AttackState :=
  if s.connection_active then
    (5.0 + d.enumBonus, { s with commands_executed := s.commands_executed + 3 })
  else
    (-5.0, s)

/-- `action == 2`, recon. -/
def reconSim (s : AttackState) : ℚ × AttackState :=
  if s.connection_active then
    (8.0, { s with commands_executed := s.commands_executed + 5
                   detection_score := s.detection_score + 0.05 })
  else
    (-5.0, s)

/-- `action == 3`, download malware. -/
def downloadMalwareSim (d : AtkDraws) (s : AttackState) : ℚ × AttackState :=
  if s.connection_active then
    if d.success then
      (15.0, { s with files_accessed := s.files_accessed + 1
                      successful_exploits := s.successful_exploits + 1
                      detection_score := s.detection_score + 0.3 })
    else
      (-3.0, s)
  else
    (-5.0, s)

/-- `action == 4`, privilege escalation. -/
def privilegeEscalationSim (d : AtkDraws) (s : AttackState) : ℚ × AttackState :=
  if s.connection_active ∧ d.success then
    (30.0, { s with privilege_level := 1.0
                    successful_exploits := s.successful_exploits + 1
                    detection_score := s.detection_score + 0.4 })
  else
    (-4.0, { s with detection_score := s.detection_score + 0.2 })

/-- `action == 5`, create backdoor. -/
def createBackdoorSim (d : AtkDraws) (s : AttackState) : ℚ × AttackState :=
  if s.privilege_level ≥ 0.5 then
    ((if d.success then 25.0 else -3.0),
     { s with detection_score := s.detection_score + 0.25 })
  else
    (-5.0, s)

/-- `action == 6`, modify files. -/
def modifyFilesSim (d : AtkDraws) (s : AttackState) : ℚ × AttackState :=
  if s.privilege_level ≥ 0.5 then
    ((if d.success then 18.0 else -2.0),
     { s with files_accessed := s.files_accessed + 1
              detection_score := s.detection_score + 0.15 })
  else
    (-5.0, s)

/-- `action == 7`, exfiltrate. -/
def exfiltrateSim (d : AtkDraws) (s : AttackState) : ℚ × AttackState :=
  if s.connection_active then
    (12.0 + (d.exfilFiles : ℚ) * 0.5,
     { s with files_accessed := s.files_accessed + d.exfilFiles
              detection_score := s.detection_score + 0.2 })
  else
    (-5.0, s)

/-- `action == 8`, port scan. -/
def portScanSim (s : AttackState) : ℚ × AttackState :=
  if s.connection_active then
    (10.0, { s with detection_score := s.detection_score + 0.3 })
  else
    (-5.0, s)

/-- The action-dispatch part of `_execute_attacker_action_sim` (lines
107-190): the `if action == k` chain producing the base reward and the
state updates, before the detection-penalty block. The final arm covers
action values that match no branch (possible because the action-name
lookup accepts negative indices): reward stays 0.0 and nothing changes. -/
def attackerPhase (action : Int) (d : AtkDraws) (s : AttackState) : ℚ × AttackState :=
  if action = 0 then bruteForceSim d s
  else if action = 1 then enumerateSim d s
  else if action = 2 then reconSim s
  else if action = 3 then downloadMalwareSim d s
  else if action = 4 then privilegeEscalationSim d s
  else if action = 5 then createBackdoorSim d s
  else if action = 6 then modifyFilesSim d s
  else if action = 7 then exfiltrateSim d s
  else if action = 8 then portScanSim s
  else if action = 9 then (-0.5, s)  -- Wait
  else (0.0, s)

/-- Result of one simulated attacker action: the reward and new state,
plus the `detected` / `terminated` flags the info dict would carry
(absent keys read back as `False` via `info.get`). -/
structure AtkStepOut where
  reward : ℚ
  state : AttackState
  detected : Bool
  terminated : Bool
deriving DecidableEq, Repr

/-- `_execute_attacker_action_sim` after the action-name lookup: the
action dispatch followed by the detection-penalty block (lines 192-198). -/
def attackerStepCore (action : Int) (d : AtkDraws) (s : AttackState) : AtkStepOut :=
  if (attackerPhase action d s).2.detection_score > 0.8 then
    { reward := (attackerPhase action d s).1 - 50.0
      state := { (attackerPhase action d s).2 with connection_active := false }
      detected := true
      terminated := true }
  else
    { reward := (attackerPhase action d s).1
      state := (attackerPhase action d s).2
      detected := false
      terminated := false }

/-- Result of one simulated defender action. -/
structure DefStepOut where
  reward : ℚ
  state : DefenseState
deriving DecidableEq, Repr

/-- The `if action == k` chain of `_execute_defender_action_sim`
(lines 209-257), producing the base reward and state updates before the
trailing `attack_happening` state update. -/
def defenderPhase (action : Int) (d : DefDraws) (s : DefenseState) : ℚ × DefenseState :=
  if action = 0 then  -- Monitor
    (1.0, s)
  else if action = 1 then  -- Rate limit
    if d.attack_happening then
      (5.0, { s with attacks_detected := s.attacks_detected + 1 })
    else
      (-1.0, s)
  else if action = 2 then  -- Temp block
    if d.attack_happening ∧ d.success then
      (10.0, { s with ips_blocked := s.ips_blocked + 1
                      attacks_detected := s.attacks_detected + 1 })
    else
      (-2.0, s)
  else if action = 3 then  -- Perm block
    if d.attack_happening ∧ d.success then
      (20.0, { s with ips_blocked := s.ips_blocked + 1
                      attacks_detected := s.attacks_detected + 1 })
    else
      (-5.0, s)
  else if action = 4 then  -- Deploy decoy
    ((if d.success then 15.0 else -3.0), s)
  else if action = 5 then  -- Rotate config
    (8.0, s)
  else if action = 6 then  -- Alert
    ((if d.attack_happening then 12.0 else -4.0), s)
  else if action = 7 then  -- Isolate
    ((if d.attack_happening ∧ d.success then 25.0 else -10.0), s)
  else if action = 8 then  -- Reset
    (-8.0, s)
  else if action = 9 then  -- Deception
    ((if d.success then 10.0 else -2.0), s)
  else
    (0.0, s)

/-- `_execute_defender_action_sim` after the action-name lookup: the
action dispatch, then the `attack_happening` state update (lines 259-262). -/
def defenderStepCore (action : Int) (d : DefDraws) (s : DefenseState) : DefStepOut :=
  { reward := (defenderPhase action d s).1
    state :=
      if d.attack_happening then
        { (defenderPhase action d s).2 with
          failed_logins := (defenderPhase action d s).2.failed_logins + d.loginInc
          suspicious_commands := (defenderPhase action d s).2.suspicious_commands + d.cmdInc }
      else (defenderPhase action d s).2 }

/-- `_get_observation`: the 8-component vector. The attacker branch reads
only the state; the defender branch samples five components afresh. -/
def getObservation (mode : Mode) (s : AttackState) (ds : DefenseState)
    (current_step : Nat) (od : ObsDraws) : List ℚ :=
  if mode = Mode.attacker then
    [(if s.connection_active then 1 else 0),
     ((min s.commands_executed 100 : Nat) : ℚ),
     ((min s.files_accessed 100 : Nat) : ℚ),
     s.privilege_level,
     min s.detection_score 1.0,
     (current_step : ℚ),
     ((min s.failed_attempts 50 : Nat) : ℚ),
     ((min s.successful_exploits 20 : Nat) : ℚ)]
  else
    [((min ds.active_connections 100 : Nat) : ℚ),
     ((min ds.failed_logins 1000 : Nat) : ℚ),
     ((min ds.suspicious_commands 1000 : Nat) : ℚ),
     (od.uniqueIPs : ℚ),
     od.sessionDur,
     (if od.portScan then 1 else 0),
     (od.malwareDownloads : ℚ),
     (od.privEscAttempts : ℚ)]

/-- The mutable fields of `HoneypotEnvSimulated`. -/
structure SimEnv where
  mode : Mode
  max_steps : Nat
  current_step : Nat
  attack_state : AttackState
  defense_state : DefenseState
deriving DecidableEq, Repr

/-- What one `step` call returns (observation, reward, terminated,
truncated), with the info-dict keys the claims read
(`info.get('detected', False)`). -/
structure StepR where
  observation : List ℚ
  reward : ℚ
  terminated : Bool
  truncated : Bool
  detected : Bool
deriving DecidableEq, Repr

/-- `HoneypotEnvSimulated.step`. `current_step` is incremented, the mode's
action executes (the action-name lookup can raise IndexError, modelled as
`Except.error`), then the observation is built and
`truncated = current_step >= max_steps`. -/
def step (env : SimEnv) (action : Int) (ad : AtkDraws) (dd : DefDraws)
    (od : ObsDraws) : Except String (StepR × SimEnv) :=
  let cur := env.current_step + 1
  if env.mode = Mode.attacker then
    match getActionName env.mode action with
    | Except.error e => Except.error e
    | Except.ok _ =>
      let out := attackerStepCore action ad env.attack_state
      Except.ok
        ({ observation := getObservation env.mode out.state env.defense_state cur od
           reward := out.reward
           terminated := out.terminated
           truncated := decide (env.max_steps ≤ cur)
           detected := out.detected },
         { env with current_step := cur, attack_state := out.state })
  else
    match getActionName env.mode action with
    | Except.error e => Except.error e
    | Except.ok _ =>
      let out := defenderStepCore action dd env.defense_state
      Except.ok
        ({ observation := getObservation env.mode env.attack_state out.state cur od
           reward := out.reward
           terminated := false
           truncated := decide (env.max_steps ≤ cur)
           detected := false },
         { env with current_step := cur, defense_state := out.state })

/-- `reset` in attacker mode: zero the step counter and the attack state. -/
def resetAttacker (env : SimEnv) : SimEnv :=
  { env with current_step := 0, attack_state := initialAttackState }

/-- `reset` in defender mode: zero the step counter and rebuild the
defense state from fresh random draws, with `ips_blocked` and
`attacks_detected` zeroed. -/
def resetDefender (env : SimEnv) (conns logins cmds : Nat) : SimEnv :=
  { env with current_step := 0
             defense_state :=
               { active_connections := conns
                 failed_logins := logins
                 suspicious_commands := cmds
                 ips_blocked := 0
                 attacks_detected := 0 } }

/-- `Except.ok`-ness as a Bool. -/
def exceptOk {α : Type} : Except String α → Bool
  | Except.ok _ => true
  | Except.error _ => false

/-- One recorded entry of an attacker rollout: the action and draws fed to
the step, the attack state before it, and the step's result. -/
structure TraceEntry where
  action : Int
  draws : AtkDraws
  preState : AttackState
  result : StepR
deriving DecidableEq, Repr

/-- Repeatedly calling `step` in attacker mode, recording each step's
pre-state and result; a raised IndexError ends the trace. -/
def attackerRollout (env : SimEnv) : List (Int × AtkDraws) → List TraceEntry
  | [] => []
  | (a, d) :: rest =>
    match step env a d defaultDefDraws defaultObsDraws with
    | Except.error _ => []
    | Except.ok (r, env') =>
      { action := a, draws := d, preState := env.attack_state, result := r } ::
        attackerRollout env' rest

/-- Repeatedly calling `step` in defender mode, collecting the results;
a raised IndexError ends the trace. -/
def defenderRollout (env : SimEnv) : List (Int × DefDraws) → List StepR
  | [] => []
  | (a, d) :: rest =>
    match step env a defaultAtkDraws d defaultObsDraws with
    | Except.error _ => []
    | Except.ok (r, env') => r :: defenderRollout env' rest

/-- The detection-penalty block of the live variant
`_execute_attacker_action` (`honeypot_env.py` lines 306-316), applied to
the recomputed detection score: above 0.8 a flat −50 penalty with
termination, in (0.5, 0.8] a proportional −score×10 penalty without
termination. Returns (reward, detected, terminated). -/
def livePenalty (reward : ℚ) (detection_score : ℚ) : ℚ × Bool × Bool :=
  if detection_score > 0.8 then
    (reward - 50.0, true, true)
  else if detection_score > 0.5 then
    (reward - detection_score * 10.0, false, false)
  else
    (reward, false, false)

/-! ### Checkpoint promotion (`set_best_model.py`, `config_loader.py`) -/

/-- The `model_paths` part of the persisted configuration. -/
structure RLConfigPaths where
  production_dir : String
  attacker_best : String
  defender_best : String
deriving DecidableEq, Repr

/-- The filesystem visible to `set_best_model`, as a path-to-contents
association list; `os.path.exists` is membership, `shutil.copy` writes
the source's contents at the destination path. -/
abbrev FileSys := List (String × String)

/-- `os.path.exists`. -/
def pathExists (fs : FileSys) (p : String) : Bool :=
  (fs.lookup p).isSome

/-- `shutil.copy(src, dst)`. -/
def copyFile (fs : FileSys) (src dst : String) : FileSys :=
  match fs.lookup src with
  | none => fs
  | some c => (dst, c) :: fs

/-- The f-string `"{prod_dir}/attacker_iter_{iteration}.zip"`. -/
def attackerIterPath (c : RLConfigPaths) (iteration : Nat) : String :=
  c.production_dir ++ "/attacker_iter_" ++ toString iteration ++ ".zip"

/-- The f-string `"{prod_dir}/defender_iter_{iteration}.zip"`. -/
def defenderIterPath (c : RLConfigPaths) (iteration : Nat) : String :=
  c.production_dir ++ "/defender_iter_" ++ toString iteration ++ ".zip"

/-- `RLConfig.update_best_models`: repoint both best-model entries at the
promoted iteration's checkpoints. -/
def update_best_models (iteration : Nat) (c : RLConfigPaths) : RLConfigPaths :=
  { c with attacker_best := attackerIterPath c iteration
           defender_best := defenderIterPath c iteration }

/-- What `set_best_model` reports: the printed error naming the absent
checkpoint, or success. -/
inductive PromoteResult
  | missingAttacker (path : String)
  | missingDefender (path : String)
  | promoted
deriving DecidableEq, Repr

/-- The state `set_best_model` reads and writes: the filesystem and the
loaded configuration. -/
structure PromoteState where
  files : FileSys
  cfg : RLConfigPaths
deriving DecidableEq, Repr

/-- `set_best_model(iteration)`: check that both iteration checkpoints
exist (returning early, untouched, when one is absent), then copy both to
their `_best` aliases and update the configuration pointers. -/
def set_best_model (iteration : Nat) (st : PromoteState) : PromoteState × PromoteResult :=
  let attackerSrc := attackerIterPath st.cfg iteration
  let defenderSrc := defenderIterPath st.cfg iteration
  let attackerDst := st.cfg.production_dir ++ "/attacker_best.zip"
  let defenderDst := st.cfg.production_dir ++ "/defender_best.zip"
  if pathExists st.files attackerSrc = false then
    (st, PromoteResult.missingAttacker attackerSrc)
  else if pathExists st.files defenderSrc = false then
    (st, PromoteResult.missingDefender defenderSrc)
  else
    let files1 := copyFile st.files attackerSrc attackerDst
    let files2 := copyFile files1 defenderSrc defenderDst
    ({ files := files2, cfg := update_best_models iteration st.cfg },
     PromoteResult.promoted)

/-! ### Concrete inputs used by counterexamples and witnesses -/

/-- A fresh attacker-mode environment with `max_steps = 100`. -/
def freshAtkEnv : SimEnv :=
  resetAttacker
    { mode := Mode.attacker, max_steps := 100, current_step := 0,
      attack_state := initialAttackState,
      defense_state :=
        { active_connections := 0, failed_logins := 0, suspicious_commands := 0,
          ips_blocked := 0, attacks_detected := 0 } }

/-- One hundred consecutive `step(9)` (wait) calls. -/
def waitActs : List (Int × AtkDraws) := List.replicate 100 (9, defaultAtkDraws)

/-- Draws in which every probabilistic test succeeds. -/
def successDraws : AtkDraws :=
  { success := true, enumBonus := 0, usersFound := 0, exfilFiles := 0 }

/-- State after a successful brute force from reset. -/
def c2S1 : AttackState := (attackerStepCore 0 successDraws initialAttackState).state

/-- State after a further successful privilege escalation. -/
def c2S2 : AttackState := (attackerStepCore 4 successDraws c2S1).state

/-- State after a further successful brute force. -/
def c2S3 : AttackState := (attackerStepCore 0 successDraws c2S2).state

/-- An attacker state whose detection score sits inside (0.5, 0.8]. -/
def c5State : AttackState := { initialAttackState with detection_score := 0.6 }

/-- An attacker state past the detection threshold (reachable by five
failed privilege-escalation attempts from reset). -/
def c7State : AttackState := { initialAttackState with detection_score := 1 }

/-- A concrete defender state for the observation counterexample. -/
def c9DefState : DefenseState :=
  { active_connections := 2, failed_logins := 3, suspicious_commands := 4,
    ips_blocked := 0, attacks_detected := 0 }

/-- Two observation-draw bundles differing only in the sampled
unique-IP count. -/
def c9Od1 : ObsDraws :=
  { uniqueIPs := 3, sessionDur := 100, portScan := false,
    malwareDownloads := 0, privEscAttempts := 0 }

def c9Od2 : ObsDraws :=
  { uniqueIPs := 4, sessionDur := 100, portScan := false,
    malwareDownloads := 0, privEscAttempts := 0 }

/-- An attacker environment already past the detection threshold. -/
def detectedEnv : SimEnv :=
  { freshAtkEnv with
    attack_state := { initialAttackState with detection_score := 0.9 } }

/-- The result of one wait step from `detectedEnv` (used to instantiate
hypotheses at a concrete input). -/
def detectedStepOut : StepR × SimEnv :=
  match step detectedEnv 9 defaultAtkDraws defaultDefDraws defaultObsDraws with
  | Except.ok p => p
  | Except.error _ =>
    ({ observation := [], reward := 0, terminated := false,
       truncated := false, detected := false }, detectedEnv)

/-- A promotion state in which only the attacker checkpoint of
iteration 3 exists. -/
def c8State : PromoteState :=
  { files := [(attackerIterPath ⟨"./models/production", "a", "d"⟩ 3, "model-bytes")]
    cfg := ⟨"./models/production", "a", "d"⟩ }

/-- A fresh defender-mode environment with `max_steps = 100`. -/
def freshDefEnv : SimEnv :=
  resetDefender
    { mode := Mode.defender, max_steps := 100, current_step := 0,
      attack_state := initialAttackState,
      defense_state :=
        { active_connections := 0, failed_logins := 0, suspicious_commands := 0,
          ips_blocked := 0, attacks_detected := 0 } } 1 2 3

/-! ### Helper lemmas -/

theorem bruteForceSim_detection_mono (d : AtkDraws) (s : AttackState) :
    s.detection_score ≤ (bruteForceSim d s).2.detection_score := by
  unfold bruteForceSim
  split <;> exact le_add_of_nonneg_right (by norm_num)

theorem enumerateSim_detection_mono (d : AtkDraws) (s : AttackState) :
    s.detection_score ≤ (enumerateSim d s).2.detection_score := by
  unfold enumerateSim
  split <;> exact le_refl _

theorem reconSim_detection_mono (s : AttackState) :
    s.detection_score ≤ (reconSim s).2.detection_score := by
  unfold reconSim
  split
  · exact le_add_of_nonneg_right (by norm_num)
  · exact le_refl _

theorem downloadMalwareSim_detection_mono (d : AtkDraws) (s : AttackState) :
    s.detection_score ≤ (downloadMalwareSim d s).2.detection_score := by
  unfold downloadMalwareSim
  split
  · split
    · exact le_add_of_nonneg_right (by norm_num)
    · exact le_refl _
  · exact le_refl _

theorem privilegeEscalationSim_detection_mono (d : AtkDraws) (s : AttackState) :
    s.detection_score ≤ (privilegeEscalationSim d s).2.detection_score := by
  unfold privilegeEscalationSim
  split <;> exact le_add_of_nonneg_right (by norm_num)

theorem createBackdoorSim_detection_mono (d : AtkDraws) (s : AttackState) :
    s.detection_score ≤ (createBackdoorSim d s).2.detection_score := by
  unfold createBackdoorSim
  split
  · exact le_add_of_nonneg_right (by norm_num)
  · exact le_refl _

theorem modifyFilesSim_detection_mono (d : AtkDraws) (s : AttackState) :
    s.detection_score ≤ (modifyFilesSim d s).2.detection_score := by
  unfold modifyFilesSim
  split
  · exact le_add_of_nonneg_right (by norm_num)
  · exact le_refl _

theorem exfiltrateSim_detection_mono (d : AtkDraws) (s : AttackState) :
    s.detection_score ≤ (exfiltrateSim d s).2.detection_score := by
  unfold exfiltrateSim
  split
  · exact le_add_of_nonneg_right (by norm_num)
  · exact le_refl _

theorem portScanSim_detection_mono (s : AttackState) :
    s.detection_score ≤ (portScanSim s).2.detection_score := by
  unfold portScanSim
  split
  · exact le_add_of_nonneg_right (by norm_num)
  · exact le_refl _

theorem attackerPhase_detection_mono (a : Int) (d : AtkDraws) (s : AttackState) :
    s.detection_score ≤ (attackerPhase a d s).2.detection_score := by
  unfold attackerPhase
  by_cases h0 : a = 0
  · rw [if_pos h0]; exact bruteForceSim_detection_mono d s
  rw [if_neg h0]
  by_cases h1 : a = 1
  · rw [if_pos h1]; exact enumerateSim_detection_mono d s
  rw [if_neg h1]
  by_cases h2 : a = 2
  · rw [if_pos h2]; exact reconSim_detection_mono s
  rw [if_neg h2]
  by_cases h3 : a = 3
  · rw [if_pos h3]; exact downloadMalwareSim_detection_mono d s
  rw [if_neg h3]
  by_cases h4 : a = 4
  · rw [if_pos h4]; exact privilegeEscalationSim_detection_mono d s
  rw [if_neg h4]
  by_cases h5 : a = 5
  · rw [if_pos h5]; exact createBackdoorSim_detection_mono d s
  rw [if_neg h5]
  by_cases h6 : a = 6
  · rw [if_pos h6]; exact modifyFilesSim_detection_mono d s
  rw [if_neg h6]
  by_cases h7 : a = 7
  · rw [if_pos h7]; exact exfiltrateSim_detection_mono d s
  rw [if_neg h7]
  by_cases h8 : a = 8
  · rw [if_pos h8]; exact portScanSim_detection_mono s
  rw [if_neg h8]
  by_cases h9 : a = 9
  · rw [if_pos h9]
  rw [if_neg h9]

theorem attackerStepCore_detection_eq (a : Int) (d : AtkDraws) (s : AttackState) :
    (attackerStepCore a d s).state.detection_score =
      (attackerPhase a d s).2.detection_score := by
  unfold attackerStepCore
  split_ifs <;> rfl

theorem attackerStepCore_priv_eq (a : Int) (d : AtkDraws) (s : AttackState) :
    (attackerStepCore a d s).state.privilege_level =
      (attackerPhase a d s).2.privilege_level := by
  unfold attackerStepCore
  split_ifs <;> rfl

theorem attackerStepCore_of_detect (a : Int) (d : AtkDraws) (s : AttackState)
    (h : 0.8 < (attackerPhase a d s).2.detection_score) :
    attackerStepCore a d s =
      { reward := (attackerPhase a d s).1 - 50.0
        state := { (attackerPhase a d s).2 with connection_active := false }
        detected := true
        terminated := true } := by
  unfold attackerStepCore
  rw [if_pos h]

theorem attackerStepCore_of_clear (a : Int) (d : AtkDraws) (s : AttackState)
    (h : (attackerPhase a d s).2.detection_score ≤ 0.8) :
    attackerStepCore a d s =
      { reward := (attackerPhase a d s).1
        state := (attackerPhase a d s).2
        detected := false
        terminated := false } := by
  unfold attackerStepCore
  rw [if_neg (not_lt.mpr h)]

theorem pyListGet_isOk (xs : List String) (a : Int)
    (h1 : -(xs.length : Int) ≤ a) (h2 : a < (xs.length : Int)) :
    ∃ nm, pyListGet xs a = Except.ok nm := by
  unfold pyListGet
  by_cases h0 : 0 ≤ a
  · rw [if_pos ⟨h0, h2⟩]; exact ⟨_, rfl⟩
  · rw [if_neg (fun hc => h0 hc.1), if_pos ⟨h1, by omega⟩]; exact ⟨_, rfl⟩

theorem pyListGet_error (xs : List String) (a : Int)
    (h : (xs.length : Int) ≤ a ∨ a < -(xs.length : Int)) :
    pyListGet xs a = Except.error "list index out of range" := by
  unfold pyListGet
  rw [if_neg (by omega), if_neg (by omega)]

theorem getActionName_isOk (m : Mode) (a : Int) (h1 : -10 ≤ a) (h2 : a ≤ 9) :
    ∃ nm, getActionName m a = Except.ok nm := by
  have hA : ((attackerActionNames.length : Nat) : Int) = 10 := by
    norm_num [attackerActionNames]
  have hD : ((defenderActionNames.length : Nat) : Int) = 10 := by
    norm_num [defenderActionNames]
  unfold getActionName
  split_ifs
  · exact pyListGet_isOk _ _ (by omega) (by omega)
  · exact pyListGet_isOk _ _ (by omega) (by omega)

theorem getActionName_error (m : Mode) (a : Int) (h : 10 ≤ a ∨ a < -10) :
    getActionName m a = Except.error "list index out of range" := by
  have hA : ((attackerActionNames.length : Nat) : Int) = 10 := by
    norm_num [attackerActionNames]
  have hD : ((defenderActionNames.length : Nat) : Int) = 10 := by
    norm_num [defenderActionNames]
  unfold getActionName
  split_ifs
  · exact pyListGet_error _ _ (by omega)
  · exact pyListGet_error _ _ (by omega)

theorem step_attacker_ok (env : SimEnv) (hm : env.mode = Mode.attacker) (a : Int)
    (h1 : -10 ≤ a) (h2 : a ≤ 9) (ad : AtkDraws) (dd : DefDraws) (od : ObsDraws) :
    step env a ad dd od = Except.ok
      ({ observation := getObservation Mode.attacker
            (attackerStepCore a ad env.attack_state).state env.defense_state
            (env.current_step + 1) od
         reward := (attackerStepCore a ad env.attack_state).reward
         terminated := (attackerStepCore a ad env.attack_state).terminated
         truncated := decide (env.max_steps ≤ env.current_step + 1)
         detected := (attackerStepCore a ad env.attack_state).detected },
       { env with current_step := env.current_step + 1
                  attack_state := (attackerStepCore a ad env.attack_state).state }) := by
  obtain ⟨nm, hnm⟩ := getActionName_isOk env.mode a h1 h2
  simp only [step, hm] at hnm ⊢
  rw [if_pos trivial, hnm]

theorem step_defender_ok (env : SimEnv) (hm : env.mode = Mode.defender) (a : Int)
    (h1 : -10 ≤ a) (h2 : a ≤ 9) (ad : AtkDraws) (dd : DefDraws) (od : ObsDraws) :
    step env a ad dd od = Except.ok
      ({ observation := getObservation Mode.defender env.attack_state
            (defenderStepCore a dd env.defense_state).state
            (env.current_step + 1) od
         reward := (defenderStepCore a dd env.defense_state).reward
         terminated := false
         truncated := decide (env.max_steps ≤ env.current_step + 1)
         detected := false },
       { env with current_step := env.current_step + 1
                  defense_state := (defenderStepCore a dd env.defense_state).state }) := by
  obtain ⟨nm, hnm⟩ := getActionName_isOk env.mode a h1 h2
  simp only [step, hm] at hnm ⊢
  rw [if_neg (by simp), hnm]

theorem defenderStepCore_monitor_reward (d : DefDraws) (s : DefenseState) :
    (defenderStepCore 0 d s).reward = 1 := by
  norm_num [defenderStepCore, defenderPhase]

/-! ### Privilege-level helper lemmas -/

theorem bruteForceSim_priv (d : AtkDraws) (s : AttackState) :
    ((bruteForceSim d s).2.privilege_level = 0.5 ∧ d.success = true) ∨
      (bruteForceSim d s).2.privilege_level = s.privilege_level := by
  unfold bruteForceSim
  cases h : d.success <;> simp [h]

theorem enumerateSim_priv (d : AtkDraws) (s : AttackState) :
    (enumerateSim d s).2.privilege_level = s.privilege_level := by
  unfold enumerateSim; split <;> rfl

theorem reconSim_priv (s : AttackState) :
    (reconSim s).2.privilege_level = s.privilege_level := by
  unfold reconSim; split <;> rfl

theorem downloadMalwareSim_priv (d : AtkDraws) (s : AttackState) :
    (downloadMalwareSim d s).2.privilege_level = s.privilege_level := by
  unfold downloadMalwareSim
  split
  · split <;> rfl
  · rfl

theorem privilegeEscalationSim_priv (d : AtkDraws) (s : AttackState) :
    (privilegeEscalationSim d s).2.privilege_level = 1 ∨
      (privilegeEscalationSim d s).2.privilege_level = s.privilege_level := by
  unfold privilegeEscalationSim
  split
  · left; norm_num
  · right; rfl

theorem createBackdoorSim_priv (d : AtkDraws) (s : AttackState) :
    (createBackdoorSim d s).2.privilege_level = s.privilege_level := by
  unfold createBackdoorSim; split <;> rfl

theorem modifyFilesSim_priv (d : AtkDraws) (s : AttackState) :
    (modifyFilesSim d s).2.privilege_level = s.privilege_level := by
  unfold modifyFilesSim; split <;> rfl

theorem exfiltrateSim_priv (d : AtkDraws) (s : AttackState) :
    (exfiltrateSim d s).2.privilege_level = s.privilege_level := by
  unfold exfiltrateSim; split <;> rfl

theorem portScanSim_priv (s : AttackState) :
    (portScanSim s).2.privilege_level = s.privilege_level := by
  unfold portScanSim; split <;> rfl

theorem attackerPhase_priv (a : Int) (d : AtkDraws) (s : AttackState) :
    (attackerPhase a d s).2.privilege_level = s.privilege_level ∨
    ((attackerPhase a d s).2.privilege_level = 0.5 ∧ a = 0 ∧ d.success = true) ∨
    ((attackerPhase a d s).2.privilege_level = 1 ∧ a = 4) := by
  unfold attackerPhase
  by_cases h0 : a = 0
  · rw [if_pos h0]
    rcases bruteForceSim_priv d s with ⟨hv, hsu⟩ | hv
    · exact Or.inr (Or.inl ⟨hv, h0, hsu⟩)
    · exact Or.inl hv
  rw [if_neg h0]
  by_cases h1 : a = 1
  · rw [if_pos h1]; exact Or.inl (enumerateSim_priv d s)
  rw [if_neg h1]
  by_cases h2 : a = 2
  · rw [if_pos h2]; exact Or.inl (reconSim_priv s)
  rw [if_neg h2]
  by_cases h3 : a = 3
  · rw [if_pos h3]; exact Or.inl (downloadMalwareSim_priv d s)
  rw [if_neg h3]
  by_cases h4 : a = 4
  · rw [if_pos h4]
    rcases privilegeEscalationSim_priv d s with hv | hv
    · exact Or.inr (Or.inr ⟨hv, h4⟩)
    · exact Or.inl hv
  rw [if_neg h4]
  by_cases h5 : a = 5
  · rw [if_pos h5]; exact Or.inl (createBackdoorSim_priv d s)
  rw [if_neg h5]
  by_cases h6 : a = 6
  · rw [if_pos h6]; exact Or.inl (modifyFilesSim_priv d s)
  rw [if_neg h6]
  by_cases h7 : a = 7
  · rw [if_pos h7]; exact Or.inl (exfiltrateSim_priv d s)
  rw [if_neg h7]
  by_cases h8 : a = 8
  · rw [if_pos h8]; exact Or.inl (portScanSim_priv s)
  rw [if_neg h8]
  by_cases h9 : a = 9
  · rw [if_pos h9]; exact Or.inl rfl
  rw [if_neg h9]; exact Or.inl rfl

/-! ### Claim theorems -/

/-- C1: in attacker mode, a successful `step` never lowers
`detection_score`, and whenever the post-step score exceeds 0.8 the
returned reward is the action's base reward minus 50.0, `terminated` is
true, `connection_active` is forced false, and `info.detected` is true. -/
theorem c1_detection_monotone_and_threshold
    (env : SimEnv) (a : Int) (ad : AtkDraws) (dd : DefDraws) (od : ObsDraws)
    (r : StepR) (env' : SimEnv)
    (hm : env.mode = Mode.attacker)
    (h : step env a ad dd od = Except.ok (r, env')) :
    env.attack_state.detection_score ≤ env'.attack_state.detection_score ∧
    (0.8 < env'.attack_state.detection_score →
      r.reward = (attackerPhase a ad env.attack_state).1 - 50.0 ∧
      r.terminated = true ∧
      env'.attack_state.connection_active = false ∧
      r.detected = true) := by
  simp only [step, hm] at h
  rw [if_pos trivial] at h
  cases hga : getActionName Mode.attacker a with
  | error e => rw [hga] at h; cases h
  | ok nm =>
    rw [hga] at h
    simp only [Except.ok.injEq, Prod.mk.injEq] at h
    obtain ⟨hr, he⟩ := h
    subst hr
    subst he
    constructor
    · exact le_of_le_of_eq (attackerPhase_detection_mono a ad env.attack_state)
        (attackerStepCore_detection_eq a ad env.attack_state).symm
    · intro hd
      have hd' : 0.8 < (attackerPhase a ad env.attack_state).2.detection_score := by
        rw [← attackerStepCore_detection_eq a ad env.attack_state]; exact hd
      have hc := attackerStepCore_of_detect a ad env.attack_state hd'
      refine ⟨?_, ?_, ?_, ?_⟩ <;> simp [hc]

/-- C4 (amended): `step` raises IndexError exactly for actions at or
above 10 or below -10 in either mode; every action in [-10, 9] (the
negative ones resolved by Python's negative list indexing) returns a
`StepResult`. -/
theorem c4_action_range (env : SimEnv) (a : Int) (ad : AtkDraws) (dd : DefDraws)
    (od : ObsDraws) :
    ((10 ≤ a ∨ a < -10) →
      step env a ad dd od = Except.error "list index out of range") ∧
    (-10 ≤ a → a ≤ 9 → exceptOk (step env a ad dd od) = true) := by
  constructor
  · intro hout
    have hga := getActionName_error env.mode a hout
    simp only [step]
    split_ifs <;> rw [hga]
  · intro h1 h2
    obtain ⟨nm, hnm⟩ := getActionName_isOk env.mode a h1 h2
    simp only [step]
    split_ifs <;> rw [hnm] <;> rfl

/-- C5 (amended): the simulated attacker environment applies no penalty
and no termination when the post-action detection score lies in
(0.5, 0.8]; the proportional −10×score penalty in that band exists only
in the live variant's detection-penalty block. -/
theorem c5_proportional_band (a : Int) (d : AtkDraws) (s : AttackState) (r score : ℚ)
    (hb : 0.5 < score ∧ score ≤ 0.8) :
    ((0.5 < (attackerStepCore a d s).state.detection_score ∧
        (attackerStepCore a d s).state.detection_score ≤ 0.8) →
      (attackerStepCore a d s).reward = (attackerPhase a d s).1 ∧
      (attackerStepCore a d s).terminated = false) ∧
    livePenalty r score = (r - score * 10.0, false, false) := by
  constructor
  · intro hband
    have hs : (attackerPhase a d s).2.detection_score ≤ 0.8 := by
      rw [← attackerStepCore_detection_eq a d s]; exact hband.2
    have hc := attackerStepCore_of_clear a d s hs
    rw [hc]
    exact ⟨rfl, rfl⟩
  · unfold livePenalty
    rw [if_neg (not_lt.mpr hb.2), if_pos hb.1]

/-- C7 (amended): with `privilege_level < 0.5`, action 5 or 6 yields
base reward −5.0 and leaves the state untouched; the returned reward and
state are exactly that when the standing detection score is at most 0.8,
while a score already above 0.8 additionally triggers the −50 detection
penalty (total −55.0) and forces `connection_active` off. -/
theorem c7_backdoor_modify_noop (a : Int) (d : AtkDraws) (s : AttackState)
    (ha : a = 5 ∨ a = 6) (hp : s.privilege_level < 0.5) :
    (s.detection_score ≤ 0.8 →
      (attackerStepCore a d s).reward = -5 ∧
      (attackerStepCore a d s).state = s ∧
      (attackerStepCore a d s).terminated = false) ∧
    (0.8 < s.detection_score →
      (attackerStepCore a d s).reward = -55 ∧
      (attackerStepCore a d s).state = { s with connection_active := false } ∧
      (attackerStepCore a d s).terminated = true) := by
  have hphase : attackerPhase a d s = (-5.0, s) := by
    rcases ha with rfl | rfl
    · have hb : createBackdoorSim d s = (-5.0, s) := by
        unfold createBackdoorSim; rw [if_neg (not_le.mpr hp)]
      norm_num [attackerPhase, hb]
    · have hb : modifyFilesSim d s = (-5.0, s) := by
        unfold modifyFilesSim; rw [if_neg (not_le.mpr hp)]
      norm_num [attackerPhase, hb]
  constructor
  · intro hle
    have hc := attackerStepCore_of_clear a d s (by rw [hphase]; exact hle)
    rw [hc, hphase]
    refine ⟨by norm_num, rfl, rfl⟩
  · intro hgt
    have hc := attackerStepCore_of_detect a d s (by rw [hphase]; exact hgt)
    rw [hc, hphase]
    refine ⟨by norm_num, rfl, rfl⟩

/-- C9 (amended): the attacker-mode observation is a pure projection of
the state (identical for any two draw bundles) with 8 components; the
defender-mode observation also has 8 components but only its first three
are functions of the state, the rest being freshly sampled. -/
theorem c9_observation_purity (s : AttackState) (ds : DefenseState) (k : Nat)
    (od od' : ObsDraws) :
    getObservation Mode.attacker s ds k od = getObservation Mode.attacker s ds k od' ∧
    (getObservation Mode.attacker s ds k od).length = 8 ∧
    (getObservation Mode.defender s ds k od).length = 8 ∧
    (getObservation Mode.defender s ds k od).take 3 =
      (getObservation Mode.defender s ds k od').take 3 :=
  ⟨rfl, rfl, rfl, rfl⟩

/-- C10: from any attacker-mode state already past the detection
threshold, every subsequent step with an in-range action again reports
`terminated = true` and `info.detected = true` and again subtracts 50.0
from that step's base reward, for as long as no reset intervenes (the
score never decreases within an episode). -/
theorem c10_detection_persistent (env : SimEnv) (acts : List (Int × AtkDraws))
    (hm : env.mode = Mode.attacker)
    (hd : 0.8 < env.attack_state.detection_score)
    (hin : ∀ p ∈ acts, 0 ≤ p.1 ∧ p.1 ≤ 9) :
    (attackerRollout env acts).length = acts.length ∧
    ∀ e ∈ attackerRollout env acts,
      e.result.terminated = true ∧ e.result.detected = true ∧
      e.result.reward = (attackerPhase e.action e.draws e.preState).1 - 50.0 := by
  induction acts generalizing env with
  | nil =>
    refine ⟨rfl, ?_⟩
    intro e he
    simp [attackerRollout] at he
  | cons p rest ih =>
    obtain ⟨a, d⟩ := p
    have hp := hin (a, d) (List.mem_cons_self _ _)
    have hstep := step_attacker_ok env hm a (by omega) hp.2 d defaultDefDraws defaultObsDraws
    have hphase : 0.8 < (attackerPhase a d env.attack_state).2.detection_score :=
      lt_of_lt_of_le hd (attackerPhase_detection_mono a d env.attack_state)
    have hcore := attackerStepCore_of_detect a d env.attack_state hphase
    have hnext : (0.8 : ℚ) < (attackerStepCore a d env.attack_state).state.detection_score := by
      rw [attackerStepCore_detection_eq]; exact hphase
    obtain ⟨ihlen, ihmem⟩ := ih
      { env with current_step := env.current_step + 1
                 attack_state := (attackerStepCore a d env.attack_state).state }
      hm hnext (fun q hq => hin q (List.mem_cons_of_mem _ hq))
    simp only [attackerRollout]
    rw [hstep]
    constructor
    · simp [ihlen]
    · intro e he
      rcases List.mem_cons.mp he with rfl | hmem
      · refine ⟨?_, ?_, ?_⟩ <;> simp [hcore]
      · exact ihmem e hmem

/-- C2 (amended): per attacker step, `privilege_level` stays in
{0.0, 0.5, 1.0}; it is 0.0 from reset, rises to 0.5 on a successful
brute force and to 1.0 on a successful privilege escalation, and the
only possible decrease is a successful brute force issued at privilege
1.0, which resets it to 0.5. -/
theorem c2_privilege_values_and_decrease (a : Int) (d : AtkDraws) (s : AttackState)
    (hs : s.privilege_level = 0 ∨ s.privilege_level = 0.5 ∨ s.privilege_level = 1) :
    ((attackerStepCore a d s).state.privilege_level = 0 ∨
     (attackerStepCore a d s).state.privilege_level = 0.5 ∨
     (attackerStepCore a d s).state.privilege_level = 1) ∧
    ((attackerStepCore a d s).state.privilege_level < s.privilege_level →
      a = 0 ∧ d.success = true ∧ s.privilege_level = 1 ∧
      (attackerStepCore a d s).state.privilege_level = 0.5) := by
  rw [attackerStepCore_priv_eq a d s]
  rcases attackerPhase_priv a d s with hv | ⟨hv, ha, hsu⟩ | ⟨hv, ha⟩
  · rw [hv]
    exact ⟨hs, fun hlt => absurd hlt (lt_irrefl _)⟩
  · rw [hv]
    refine ⟨Or.inr (Or.inl rfl), fun hlt => ⟨ha, hsu, ?_, rfl⟩⟩
    rcases hs with h0 | h0 | h0 <;> rw [h0] at hlt
    · exact absurd hlt (by norm_num)
    · exact absurd hlt (by norm_num)
    · exact h0
  · rw [hv]
    refine ⟨Or.inr (Or.inr rfl), fun hlt => ?_⟩
    exfalso
    rcases hs with h0 | h0 | h0 <;> rw [h0] at hlt <;> norm_num at hlt

/-- The defender rollout on repeated monitor actions: from any defender
state with `current_step + n = max_steps` and `n ≥ 1` remaining steps,
each step pays +1.0 without termination, and only the last is
truncated. -/
theorem defenderRollout_monitor (draws : List DefDraws) :
    ∀ env : SimEnv, env.mode = Mode.defender →
      env.current_step + draws.length = env.max_steps → draws ≠ [] →
      (defenderRollout env (draws.map (fun d => (0, d)))).map
          (fun r => (r.reward, r.terminated, r.truncated)) =
        List.replicate (draws.length - 1) ((1 : ℚ), false, false) ++
          [((1 : ℚ), false, true)] := by
  induction draws with
  | nil => intro env _ _ hne; exact absurd rfl hne
  | cons d rest ih =>
    intro env hm hcs _
    simp only [List.map_cons, defenderRollout]
    rw [step_defender_ok env hm 0 (by norm_num) (by norm_num) defaultAtkDraws d
      defaultObsDraws]
    cases rest with
    | nil =>
      have ht : decide (env.max_steps ≤ env.current_step + 1) = true := by
        simp only [List.length_cons, List.length_nil] at hcs
        simp only [decide_eq_true_eq]
        omega
      simp [defenderRollout, defenderStepCore_monitor_reward, ht]
    | cons d2 rest2 =>
      have hf : decide (env.max_steps ≤ env.current_step + 1) = false := by
        simp only [List.length_cons] at hcs
        simp only [decide_eq_false_iff_not]
        omega
      have ih2 := ih
        { env with current_step := env.current_step + 1
                   defense_state := (defenderStepCore 0 d env.defense_state).state }
        hm (by simp only [List.length_cons] at hcs ⊢; omega) (by simp)
      simp only [List.map_cons] at ih2
      simp only [List.map_cons, ih2, defenderStepCore_monitor_reward, hf,
        List.length_cons]
      simp [List.replicate_succ]

/-- C6: in defender mode with `max_steps = 100`, one hundred consecutive
monitor steps after reset each return reward exactly +1.0 and
`terminated = false` whatever the latent attacks and random draws,
`truncated` fires exactly at the 100th step, and the rewards sum
to +100.0. -/
theorem c6_defender_monitor_100 (cs0 conns logins cmds : Nat) (s0 : AttackState)
    (ds0 : DefenseState) (draws : List DefDraws) (hlen : draws.length = 100) :
    (defenderRollout
        (resetDefender
          { mode := Mode.defender, max_steps := 100, current_step := cs0,
            attack_state := s0, defense_state := ds0 } conns logins cmds)
        (draws.map (fun d => (0, d)))).map
        (fun r => (r.reward, r.terminated, r.truncated)) =
      List.replicate 99 ((1 : ℚ), false, false) ++ [((1 : ℚ), false, true)] ∧
    ((defenderRollout
        (resetDefender
          { mode := Mode.defender, max_steps := 100, current_step := cs0,
            attack_state := s0, defense_state := ds0 } conns logins cmds)
        (draws.map (fun d => (0, d)))).map (fun r => r.reward)).sum = 100 := by
  have h1 := defenderRollout_monitor draws
    (resetDefender
      { mode := Mode.defender, max_steps := 100, current_step := cs0,
        attack_state := s0, defense_state := ds0 } conns logins cmds)
    rfl (by simp [resetDefender, hlen])
    (by intro hnil; rw [hnil] at hlen; simp at hlen)
  rw [hlen] at h1
  norm_num at h1
  refine ⟨h1, ?_⟩
  have h2 := congrArg (List.map (fun t : ℚ × Bool × Bool => t.1)) h1
  simp only [List.map_map, List.map_append, List.map_replicate,
    List.map_cons, List.map_nil] at h2
  have h3 : ((fun t : ℚ × Bool × Bool => t.1) ∘
      fun r : StepR => (r.reward, r.terminated, r.truncated)) =
      fun r : StepR => r.reward := rfl
  rw [h3] at h2
  rw [h2, List.sum_append, List.sum_replicate]
  norm_num [nsmul_eq_mul]

/-- C8: promoting an iteration while only one of its two checkpoint
files exists returns with the promotion state (both best aliases and
both configuration pointers) completely unchanged and reports the
missing checkpoint by path. -/
theorem c8_promote_partial (n : Nat) (st : PromoteState)
    (hx : pathExists st.files (attackerIterPath st.cfg n) ≠
          pathExists st.files (defenderIterPath st.cfg n)) :
    (set_best_model n st).1 = st ∧
    (pathExists st.files (attackerIterPath st.cfg n) = false →
      (set_best_model n st).2 =
        PromoteResult.missingAttacker (attackerIterPath st.cfg n)) ∧
    (pathExists st.files (attackerIterPath st.cfg n) = true →
      (set_best_model n st).2 =
        PromoteResult.missingDefender (defenderIterPath st.cfg n)) := by
  by_cases hA : pathExists st.files (attackerIterPath st.cfg n) = false
  · simp only [set_best_model, hA]
    refine ⟨rfl, fun _ => rfl, fun hT => ?_⟩
    cases hT
  · have hA' : pathExists st.files (attackerIterPath st.cfg n) = true := by
      revert hA
      cases pathExists st.files (attackerIterPath st.cfg n) <;> simp
    have hD : pathExists st.files (defenderIterPath st.cfg n) = false := by
      rw [hA'] at hx
      revert hx
      cases pathExists st.files (defenderIterPath st.cfg n) <;> simp
    simp only [set_best_model, hA', hD]
    refine ⟨rfl, fun hF => ?_, fun _ => rfl⟩
    cases hF

/-! ### Concrete evaluations: counterexamples and witnesses.
The `Rat` arithmetic operations are `@[irreducible]` upstream; they are
made semireducible for the remainder of this section so `decide` can
evaluate the simulator on concrete inputs. -/

section ConcreteEvaluation

attribute [local semireducible] Rat.add Rat.sub Rat.mul Rat.inv Rat.ofScientific

set_option maxRecDepth 4000 in
/-- C3: in attacker mode with `max_steps = 100`, one hundred consecutive
`step(9)` calls after reset return reward −0.5 each, `terminated = false`
each, `truncated = true` exactly on the 100th call, and rewards summing
to −50.0. -/
theorem c3_wait_rollout_100 :
    (attackerRollout freshAtkEnv waitActs).map
        (fun e => (e.result.reward, e.result.terminated, e.result.truncated)) =
      List.replicate 99 ((-0.5 : ℚ), false, false) ++ [((-0.5 : ℚ), false, true)] ∧
    ((attackerRollout freshAtkEnv waitActs).map (fun e => e.result.reward)).sum =
      -50 := by
  decide

/-- C2 counterexample: from reset, a successful brute force, then a
successful privilege escalation (privilege 1.0), then another successful
brute force leaves privilege at 0.5 — a strict decrease inside one
untermininated episode, refuting "privilege_level never decreases". -/
theorem c2_counterexample :
    c2S2.privilege_level = 1 ∧
    c2S3.privilege_level = 0.5 ∧
    c2S3.privilege_level < c2S2.privilege_level ∧
    (attackerStepCore 0 successDraws c2S2).terminated = false ∧
    c2S3.detection_score ≤ 0.8 := by
  decide

/-- C2 witness for the amended claim, at a successful brute force issued
from the privilege-1.0 state `c2S2`. -/
theorem c2_witness :
    ((attackerStepCore 0 successDraws c2S2).state.privilege_level = 0 ∨
     (attackerStepCore 0 successDraws c2S2).state.privilege_level = 0.5 ∨
     (attackerStepCore 0 successDraws c2S2).state.privilege_level = 1) ∧
    ((attackerStepCore 0 successDraws c2S2).state.privilege_level <
        c2S2.privilege_level →
      (0 : Int) = 0 ∧ successDraws.success = true ∧ c2S2.privilege_level = 1 ∧
      (attackerStepCore 0 successDraws c2S2).state.privilege_level = 0.5) :=
  c2_privilege_values_and_decrease 0 successDraws c2S2 (by decide)

/-- C1 witness: one wait step from an attacker state whose detection
score is already 0.9. -/
theorem c1_witness :
    detectedEnv.attack_state.detection_score ≤
      detectedStepOut.2.attack_state.detection_score ∧
    (0.8 < detectedStepOut.2.attack_state.detection_score →
      detectedStepOut.1.reward =
        (attackerPhase 9 defaultAtkDraws detectedEnv.attack_state).1 - 50.0 ∧
      detectedStepOut.1.terminated = true ∧
      detectedStepOut.2.attack_state.connection_active = false ∧
      detectedStepOut.1.detected = true) :=
  c1_detection_monotone_and_threshold detectedEnv 9 defaultAtkDraws defaultDefDraws
    defaultObsDraws detectedStepOut.1 detectedStepOut.2 rfl (by rfl)

/-- C4 counterexample: `step(-1)` does not raise — Python's negative
list indexing accepts it, no action branch matches, and a StepResult
with reward 0.0 comes back. -/
theorem c4_counterexample :
    exceptOk (step freshAtkEnv (-1) defaultAtkDraws defaultDefDraws defaultObsDraws) =
      true ∧
    (step freshAtkEnv (-1) defaultAtkDraws defaultDefDraws defaultObsDraws).toOption.map
        (fun p => (p.1.reward, p.1.terminated)) = some (0, false) := by
  decide

/-- C4 witness: action 10 raises IndexError while action -10 succeeds. -/
theorem c4_witness :
    step freshAtkEnv 10 defaultAtkDraws defaultDefDraws defaultObsDraws =
      Except.error "list index out of range" ∧
    exceptOk (step freshAtkEnv (-10) defaultAtkDraws defaultDefDraws defaultObsDraws) =
      true :=
  ⟨(c4_action_range freshAtkEnv 10 defaultAtkDraws defaultDefDraws defaultObsDraws).1
      (Or.inl (by norm_num)),
   (c4_action_range freshAtkEnv (-10) defaultAtkDraws defaultDefDraws
      defaultObsDraws).2 (by norm_num) (by norm_num)⟩

/-- C5 counterexample: at detection score 0.6 (inside (0.5, 0.8]) a wait
step keeps its base reward −0.5 — no −10×score penalty is applied in the
simulated environment. -/
theorem c5_counterexample :
    0.5 < (attackerStepCore 9 defaultAtkDraws c5State).state.detection_score ∧
    (attackerStepCore 9 defaultAtkDraws c5State).state.detection_score ≤ 0.8 ∧
    (attackerStepCore 9 defaultAtkDraws c5State).reward = -0.5 ∧
    (attackerStepCore 9 defaultAtkDraws c5State).reward ≠
      -0.5 - (attackerStepCore 9 defaultAtkDraws c5State).state.detection_score * 10 := by
  decide

/-- C5 witness: the amended claim at the 0.6-score state and, for the
live-variant penalty block, at score 0.6 and base reward −0.5. -/
theorem c5_witness :
    ((0.5 < (attackerStepCore 9 defaultAtkDraws c5State).state.detection_score ∧
        (attackerStepCore 9 defaultAtkDraws c5State).state.detection_score ≤ 0.8) →
      (attackerStepCore 9 defaultAtkDraws c5State).reward =
        (attackerPhase 9 defaultAtkDraws c5State).1 ∧
      (attackerStepCore 9 defaultAtkDraws c5State).terminated = false) ∧
    livePenalty (-0.5) 0.6 = ((-0.5 : ℚ) - 0.6 * 10.0, false, false) :=
  c5_proportional_band 9 defaultAtkDraws c5State (-0.5) 0.6 (by norm_num)

/-- C7 counterexample: `c7State` (privilege 0, detection score 1.0,
reachable by five failed escalation attempts) makes action 5 return
−55.0, not −5.0. -/
theorem c7_counterexample :
    c7State.privilege_level < 0.5 ∧
    ((fun s => (attackerStepCore 4 defaultAtkDraws s).state)^[5]
        initialAttackState) = c7State ∧
    (attackerStepCore 5 defaultAtkDraws c7State).reward = -55 ∧
    (attackerStepCore 5 defaultAtkDraws c7State).reward ≠ -5 := by
  decide

/-- C7 witness: the amended claim at action 5 from the reset state,
where the detection score 0.0 stays under the threshold. -/
theorem c7_witness :
    (attackerStepCore 5 defaultAtkDraws initialAttackState).reward = -5 ∧
    (attackerStepCore 5 defaultAtkDraws initialAttackState).state =
      initialAttackState ∧
    (attackerStepCore 5 defaultAtkDraws initialAttackState).terminated = false :=
  (c7_backdoor_modify_noop 5 defaultAtkDraws initialAttackState (Or.inl rfl)
    (by decide)).1 (by decide)

/-- C6 witness: the deterministic instance with all reset draws fixed
and one hundred all-default step draws. -/
theorem c6_witness :
    (defenderRollout
        (resetDefender
          { mode := Mode.defender, max_steps := 100, current_step := 7,
            attack_state := initialAttackState, defense_state := c9DefState } 1 2 3)
        ((List.replicate 100 defaultDefDraws).map (fun d => (0, d)))).map
        (fun r => (r.reward, r.terminated, r.truncated)) =
      List.replicate 99 ((1 : ℚ), false, false) ++ [((1 : ℚ), false, true)] ∧
    ((defenderRollout
        (resetDefender
          { mode := Mode.defender, max_steps := 100, current_step := 7,
            attack_state := initialAttackState, defense_state := c9DefState } 1 2 3)
        ((List.replicate 100 defaultDefDraws).map (fun d => (0, d)))).map
        (fun r => r.reward)).sum = 100 :=
  c6_defender_monitor_100 7 1 2 3 initialAttackState c9DefState
    (List.replicate 100 defaultDefDraws) (by decide)

/-- C8 witness: a production directory holding only the attacker
checkpoint of iteration 3. -/
theorem c8_witness :
    (set_best_model 3 c8State).1 = c8State ∧
    (pathExists c8State.files (attackerIterPath c8State.cfg 3) = false →
      (set_best_model 3 c8State).2 =
        PromoteResult.missingAttacker (attackerIterPath c8State.cfg 3)) ∧
    (pathExists c8State.files (attackerIterPath c8State.cfg 3) = true →
      (set_best_model 3 c8State).2 =
        PromoteResult.missingDefender (defenderIterPath c8State.cfg 3)) :=
  c8_promote_partial 3 c8State (by decide)

/-- C9 counterexample: the same defender state yields two different
observation vectors under two different random draw bundles — the
defender observation is not a pure function of the state. -/
theorem c9_counterexample :
    getObservation Mode.defender initialAttackState c9DefState 0 c9Od1 ≠
      getObservation Mode.defender initialAttackState c9DefState 0 c9Od2 := by
  decide

/-- C10 witness: from a detection-score-0.9 attacker state, both steps
of a wait-then-brute-force rollout report detection and termination. -/
theorem c10_witness :
    (attackerRollout detectedEnv [(9, defaultAtkDraws), (0, defaultAtkDraws)]).length =
      ([(9, defaultAtkDraws), (0, defaultAtkDraws)] : List (Int × AtkDraws)).length ∧
    ∀ e ∈ attackerRollout detectedEnv [(9, defaultAtkDraws), (0, defaultAtkDraws)],
      e.result.terminated = true ∧ e.result.detected = true ∧
      e.result.reward = (attackerPhase e.action e.draws e.preState).1 - 50.0 :=
  c10_detection_persistent detectedEnv [(9, defaultAtkDraws), (0, defaultAtkDraws)]
    rfl (by decide) (by decide)

end ConcreteEvaluation

end CyberX
